import Mathlib

/-!
Verification development for the mineru-mcp repository.

The development shallowly embeds the two source files:

* `src/index.ts` — the four tool handlers (`mineru_parse`, `mineru_status`,
  `mineru_batch`, `mineru_batch_status`), the status/batch formatters, the
  fixed error-code table, and the remote call adapter `mineruRequest`.
* `src/server.ts` — the HTTP protocol gateway: the `transports` session
  registry and the `app.post("/mcp")` dispatch logic.

JavaScript aspects appearing in the code are made explicit: string
truthiness (the empty string is falsy), `||` on strings, object-key
assignment/deletion semantics of the `transports` map, and
`String(result.code)` on a JSON number-or-string error code.  Network
effects are modelled by passing in the remote response envelope and by
counting adapter invocations and issued HTTP requests in a `CallTrace`.
Network-level failures (the `AxiosError` branch of `mineruRequest`) are
outside the claims and outside this model.
-/

namespace MineruMcp

/-- JavaScript truthiness of a string: every string except `""` is truthy. -/
def jsTruthy (s : String) : Bool := s ≠ ""

/-- JavaScript truthiness of a possibly-`undefined` string (`undefined` and
`""` are both falsy). -/
def jsTruthyOpt : Option String → Bool
  | some s => s ≠ ""
  | none => false

/-- JavaScript `a || b` on strings (with `undefined` collapsed to `""`,
which is equivalent for `||`). -/
def jsOr (a b : String) : String := if jsTruthy a then a else b

/-- Table `ERROR_MESSAGES` from `src/index.ts` (lines 25–35): the fixed
code → actionable-message table. -/
def ERROR_MESSAGES : List (String × String) :=
  [("A0202", "Token error. Check your API key."),
   ("A0211", "Token expired. Get a new API key."),
   ("-60002", "Invalid file format. Use: pdf, doc, docx, ppt, pptx, png, jpg, jpeg"),
   ("-60005", "File too large. Max 200MB."),
   ("-60006", "Too many pages. Max 600 per file. Split the document."),
   ("-60008", "URL timeout. Check the URL is accessible."),
   ("-60009", "Queue full. Try again later."),
   ("-60012", "Task not found. Check task_id is valid."),
   ("-60013", "Access denied. You can only access your own tasks.")]

/-- The `code` field of the remote response envelope is JSON and may arrive
as a number (`0`, `-60006`) or a string (`"A0202"`). -/
inductive JsonCode where
  | num (n : Int)
  | str (s : String)
deriving DecidableEq, Repr

/-- JavaScript `String(result.code)`. -/
def JsonCode.toStr : JsonCode → String
  | .num n => toString n
  | .str s => s

/-- The remote service's response envelope (`{code, msg, data}`), the shape
unwrapped by `mineruRequest`. -/
structure Envelope (α : Type) where
  code : JsonCode
  msg : Option String
  data : α

/-- The error taxonomy raised by `src/index.ts` (all are `Error` values at
runtime; the constructors keep the structured code/message view). -/
inductive MineruErr where
  | config (message : String)
  | validation (message : String)
  | remote (code : String) (message : String)
deriving DecidableEq, Repr

/-- Rendering of a `MineruErr.remote` back to the literal `Error` message
thrown by the source: `` `MinerU error ${code}: ${msg}` ``. -/
def MineruErr.render : MineruErr → String
  | .config m => m
  | .validation m => m
  | .remote c m => "MinerU error " ++ c ++ ": " ++ m

/-- Expression `ERROR_MESSAGES[code] || result.msg || "Unknown error"` from
`src/index.ts` line 146, with JavaScript `||` semantics (an absent table
entry is `undefined`, i.e. falsy; an absent or empty `result.msg` is
falsy). -/
def resolveRemoteMsg (code : String) (svcMsg : Option String) : String :=
  jsOr (jsOr ((ERROR_MESSAGES.lookup code).getD "") (svcMsg.getD "")) "Unknown error"

/-- Effect bookkeeping for one handler run: how many times the remote call
adapter (`mineruRequest`) was entered, and how many HTTP requests were
actually issued to the remote service. -/
structure CallTrace where
  adapterCalls : Nat
  httpRequests : Nat
deriving DecidableEq, Repr

/-- JSON values as they occur in the request payloads built by the
handlers. -/
inductive JVal where
  | str (s : String)
  | bool (b : Bool)
  | num (n : Nat)
  | arr (xs : List JVal)
  | obj (fields : List (String × JVal))

/-- Function `mineruRequest` from `src/index.ts` (lines 123–162), restricted to the
envelope path: checks the API key before any HTTP activity (JS `!apiKey`
is true exactly for the empty string), then issues the request and unwraps
the envelope: `result.code !== 0` (strict JS inequality — only the JSON
number `0` is success) raises `MinerU error ${code}: ${msg}` with
`code = String(result.code)` and `msg` resolved via `resolveRemoteMsg`.
`endpoint`, `method` and `data` are carried for fidelity; `env` is the
envelope the remote service answers with. -/
def mineruRequest {α : Type} (apiKey : String) (endpoint : String) (method : String)
    (data : Option (List (String × JVal))) (env : Envelope α) :
    Except MineruErr α × CallTrace :=
  let _ := endpoint
  let _ := method
  let _ := data
  if !(jsTruthy apiKey) then
    (Except.error (MineruErr.config "MINERU_API_KEY not set. Add it to your environment."),
     ⟨1, 0⟩)
  else if env.code = JsonCode.num 0 then
    (Except.ok env.data, ⟨1, 1⟩)
  else
    let code := env.code.toStr
    (Except.error (MineruErr.remote code (resolveRemoteMsg code env.msg)), ⟨1, 1⟩)

/-- The `extract_progress` objects of `TaskStatus` / batch entries. -/
structure ExtractProgress where
  extracted_pages : Nat
  total_pages : Nat
  start_time : String
deriving DecidableEq, Repr

/-- Interface `TaskResponse` from `src/index.ts`. -/
structure TaskResponse where
  task_id : String
deriving DecidableEq, Repr

/-- Interface `TaskStatus` from `src/index.ts`; `state` is one of
`pending | running | done | failed | converting`, kept as a string exactly
as the source compares it. -/
structure TaskStatus where
  task_id : String
  data_id : Option String
  state : String
  full_zip_url : Option String
  err_msg : Option String
  extract_progress : Option ExtractProgress
deriving DecidableEq, Repr

/-- Interface `BatchResponse` from `src/index.ts`. -/
structure BatchResponse where
  batch_id : String
deriving DecidableEq, Repr

/-- One element of `BatchStatus.extract_result`. -/
structure BatchFileResult where
  file_name : String
  state : String
  full_zip_url : Option String
  err_msg : Option String
  data_id : Option String
  extract_progress : Option ExtractProgress
deriving DecidableEq, Repr

/-- Interface `BatchStatus` from `src/index.ts`. -/
structure BatchStatus where
  batch_id : String
  extract_result : List BatchFileResult
deriving DecidableEq, Repr

/-- Function `formatConciseStatus` from `src/index.ts` (lines 76–87).  The source
pushes an extra part onto `[state, task_id]` guarded by JS truthiness
(`status.full_zip_url` and `status.err_msg` are falsy when `undefined` or
`""`; `status.extract_progress` is an object, truthy whenever present) and
joins with `" | "`. -/
def formatConciseStatus (status : TaskStatus) : String :=
  let parts : List String := [status.state, status.task_id]
  let parts :=
    if status.state == "done" && jsTruthyOpt status.full_zip_url then
      parts ++ [status.full_zip_url.getD ""]
    else if status.state == "running" && status.extract_progress.isSome then
      match status.extract_progress with
      | some p => parts ++ [toString p.extracted_pages ++ "/" ++ toString p.total_pages ++ " pages"]
      | none => parts
    else if status.state == "failed" && jsTruthyOpt status.err_msg then
      parts ++ [status.err_msg.getD ""]
    else parts
  String.intercalate " | " parts

/-- Quoting for the JSON dumps below (string escaping elided: the claims
never touch the detailed format). -/
def jsonQuote (s : String) : String := "\"" ++ s ++ "\""

/-- Function `formatDetailedStatus` from `src/index.ts` line 89:
`JSON.stringify(status, null, 2)`.  Absent (`undefined`) fields are
skipped, as `JSON.stringify` does; the field order is fixed to the
`TaskStatus` declaration (at runtime it follows the remote payload). -/
def formatDetailedStatus (status : TaskStatus) : String :=
  let fields : List String :=
    ([some ("\"task_id\": " ++ jsonQuote status.task_id),
      status.data_id.map (fun d => "\"data_id\": " ++ jsonQuote d),
      some ("\"state\": " ++ jsonQuote status.state),
      status.full_zip_url.map (fun u => "\"full_zip_url\": " ++ jsonQuote u),
      status.err_msg.map (fun e => "\"err_msg\": " ++ jsonQuote e),
      status.extract_progress.map (fun p =>
        "\"extract_progress\": \x7b\n    \"extracted_pages\": " ++ toString p.extracted_pages ++
          ",\n    \"total_pages\": " ++ toString p.total_pages ++
          ",\n    \"start_time\": " ++ jsonQuote p.start_time ++ "\n  \x7d")] :
      List (Option String)).filterMap id
  "\x7b\n" ++ String.intercalate ",\n" (fields.map (fun f => "  " ++ f)) ++ "\n\x7d"

/-- The per-file line pushed by the `for` loop of `formatConciseBatch`
(`src/index.ts` lines 99–107), with the same truthiness guards as the
source. -/
def renderBatchLine (r : BatchFileResult) : String :=
  let line := "- " ++ r.file_name ++ ": " ++ r.state
  if r.state == "done" && jsTruthyOpt r.full_zip_url then
    line ++ " " ++ r.full_zip_url.getD ""
  else if r.state == "running" && r.extract_progress.isSome then
    match r.extract_progress with
    | some p => line ++ " (" ++ toString p.extracted_pages ++ "/" ++ toString p.total_pages ++ ")"
    | none => line
  else line

/-- Function `formatConciseBatch` from `src/index.ts` (lines 93–114).
`extract_result.slice(offset, offset + limit)` on natural arguments is
`drop offset` then `take limit`; the `for … lines.push` loop is a left
fold; the continuation hint is appended when `offset + limit < total`. -/
def formatConciseBatch (batch : BatchStatus) (limit offset : Nat) : String :=
  let results := (batch.extract_result.drop offset).take limit
  let total := batch.extract_result.length
  let done := (batch.extract_result.filter (fun r => r.state == "done")).length
  let header := "Batch " ++ batch.batch_id ++ ": " ++ toString done ++ "/" ++ toString total ++ " done"
  let lines := results.foldl (fun acc r => acc ++ [renderBatchLine r]) [header]
  let lines :=
    if offset + limit < total then
      lines ++ ["[+" ++ toString (total - offset - limit) ++ " more, use offset=" ++
        toString (offset + limit) ++ "]"]
    else lines
  String.intercalate "\n" lines

/-- One element of the `JSON.stringify(batch, null, 2)` dump (detailed
batch format), rendered at array-element depth. -/
def renderBatchFileJson (r : BatchFileResult) : String :=
  let fields : List String :=
    ([some ("\"file_name\": " ++ jsonQuote r.file_name),
      some ("\"state\": " ++ jsonQuote r.state),
      r.full_zip_url.map (fun u => "\"full_zip_url\": " ++ jsonQuote u),
      r.err_msg.map (fun e => "\"err_msg\": " ++ jsonQuote e),
      r.data_id.map (fun d => "\"data_id\": " ++ jsonQuote d),
      r.extract_progress.map (fun p =>
        "\"extract_progress\": \x7b\n        \"extracted_pages\": " ++ toString p.extracted_pages ++
          ",\n        \"total_pages\": " ++ toString p.total_pages ++
          ",\n        \"start_time\": " ++ jsonQuote p.start_time ++ "\n      \x7d")] :
      List (Option String)).filterMap id
  "\x7b\n" ++ String.intercalate ",\n" (fields.map (fun f => "      " ++ f)) ++ "\n    \x7d"

/-- Rendering `JSON.stringify(batch, null, 2)` (the detailed branch of
`mineru_batch_status`), with the same conventions as
`formatDetailedStatus`. -/
def formatDetailedBatch (batch : BatchStatus) : String :=
  let arr :=
    if batch.extract_result.isEmpty then "[]"
    else
      "[\n" ++ String.intercalate ",\n"
        (batch.extract_result.map (fun r => "    " ++ renderBatchFileJson r)) ++ "\n  ]"
  "\x7b\n  \"batch_id\": " ++ jsonQuote batch.batch_id ++
    ",\n  \"extract_result\": " ++ arr ++ "\n\x7d"

/-- Parameters of the `mineru_parse` tool (after zod validation);
`Option` marks the optional fields. -/
structure ParseParams where
  url : String
  model : Option String
  pages : Option String
  ocr : Option Bool
  formula : Option Bool
  table : Option Bool
  language : Option String
  formats : Option (List String)

/-- The `requestData` object built by the `mineru_parse` handler
(`src/index.ts` lines 191–201): base fields `url` and
`model_version = params.model || defaultModel`, then conditionally added
fields (`if (params.pages)` is string truthiness; `!== undefined` is
presence; `params.formats?.length` is presence and non-emptiness). -/
def buildParseRequestData (defaultModel : String) (p : ParseParams) :
    List (String × JVal) :=
  let d : List (String × JVal) :=
    [("url", JVal.str p.url), ("model_version", JVal.str (jsOr (p.model.getD "") defaultModel))]
  let d := if jsTruthyOpt p.pages then d ++ [("page_ranges", JVal.str (p.pages.getD ""))] else d
  let d := match p.ocr with
    | some b => d ++ [("is_ocr", JVal.bool b)]
    | none => d
  let d := match p.formula with
    | some b => d ++ [("enable_formula", JVal.bool b)]
    | none => d
  let d := match p.table with
    | some b => d ++ [("enable_table", JVal.bool b)]
    | none => d
  let d := if jsTruthyOpt p.language then d ++ [("language", JVal.str (p.language.getD ""))] else d
  let d := match p.formats with
    | some fs => if fs.length ≠ 0 then d ++ [("extra_formats", JVal.arr (fs.map JVal.str))] else d
    | none => d
  d

/-- The `mineru_parse` tool handler (`src/index.ts` lines 190–213): builds
`requestData`, POSTs it to `/extract/task` through the adapter, and formats
the task id.  `env` is the remote response envelope. -/
def mineru_parse (apiKey defaultModel : String) (p : ParseParams)
    (env : Envelope TaskResponse) : Except MineruErr String × CallTrace :=
  let (r, tr) := mineruRequest apiKey "/extract/task" "POST"
    (some (buildParseRequestData defaultModel p)) env
  (r.map (fun t => "Task created: " ++ t.task_id ++ "\nUse mineru_status to check progress."), tr)

/-- Parameters of the `mineru_status` tool; `format` defaults to
`"concise"` through zod. -/
structure StatusParams where
  task_id : String
  format : String

/-- The `mineru_status` tool handler (`src/index.ts` lines 228–239): GETs
`/extract/task/${task_id}` and formats the status record, detailed or
concise. -/
def mineru_status (apiKey : String) (p : StatusParams)
    (env : Envelope TaskStatus) : Except MineruErr String × CallTrace :=
  let (r, tr) := mineruRequest apiKey ("/extract/task/" ++ p.task_id) "GET" none env
  (r.map (fun status =>
    if p.format == "detailed" then formatDetailedStatus status
    else formatConciseStatus status), tr)

/-- Parameters of the `mineru_batch` tool. -/
structure BatchParams where
  urls : List String
  model : Option String
  ocr : Option Bool
  formula : Option Bool
  table : Option Bool
  language : Option String
  formats : Option (List String)

/-- The `requestData` object built by the `mineru_batch` handler
(`src/index.ts` lines 266–275): `files` wraps each url in a `{url}`
object. -/
def buildBatchRequestData (defaultModel : String) (p : BatchParams) :
    List (String × JVal) :=
  let d : List (String × JVal) :=
    [("files", JVal.arr (p.urls.map (fun u => JVal.obj [("url", JVal.str u)]))),
     ("model_version", JVal.str (jsOr (p.model.getD "") defaultModel))]
  let d := match p.ocr with
    | some b => d ++ [("is_ocr", JVal.bool b)]
    | none => d
  let d := match p.formula with
    | some b => d ++ [("enable_formula", JVal.bool b)]
    | none => d
  let d := match p.table with
    | some b => d ++ [("enable_table", JVal.bool b)]
    | none => d
  let d := if jsTruthyOpt p.language then d ++ [("language", JVal.str (p.language.getD ""))] else d
  let d := match p.formats with
    | some fs => if fs.length ≠ 0 then d ++ [("extra_formats", JVal.arr (fs.map JVal.str))] else d
    | none => d
  d

/-- The `mineru_batch` tool handler (`src/index.ts` lines 261–287): the
very first statement rejects more than 200 URLs (`throw new Error("Max 200
URLs per batch. Split into smaller batches.")`) before any request data is
built or the adapter is entered; otherwise it POSTs to
`/extract/task/batch`. -/
def mineru_batch (apiKey defaultModel : String) (p : BatchParams)
    (env : Envelope BatchResponse) : Except MineruErr String × CallTrace :=
  if p.urls.length > 200 then
    (Except.error (MineruErr.validation "Max 200 URLs per batch. Split into smaller batches."),
     ⟨0, 0⟩)
  else
    let (r, tr) := mineruRequest apiKey "/extract/task/batch" "POST"
      (some (buildBatchRequestData defaultModel p)) env
    (r.map (fun b => "Batch created: " ++ b.batch_id ++ "\n" ++ toString p.urls.length ++
      " files queued.\nUse mineru_batch_status to check progress."), tr)

/-- Parameters of the `mineru_batch_status` tool; zod defaults `limit` to
`10`, `offset` to `0` and `format` to `"concise"`, so the handler sees
them present (the source's `?? 10` / `?? 0` re-apply the same defaults).
The model restricts `limit`/`offset` to naturals, matching their
documented meaning ("Max results to return" / "Skip first N results"). -/
structure BatchStatusParams where
  batch_id : String
  limit : Nat
  offset : Nat
  format : String

/-- The `mineru_batch_status` tool handler (`src/index.ts` lines 304–317):
GETs `/extract-results/batch/${batch_id}` and formats the batch, detailed
or paginated-concise. -/
def mineru_batch_status (apiKey : String) (p : BatchStatusParams)
    (env : Envelope BatchStatus) : Except MineruErr String × CallTrace :=
  let (r, tr) := mineruRequest apiKey ("/extract-results/batch/" ++ p.batch_id) "GET" none env
  (r.map (fun batch =>
    if p.format == "detailed" then formatDetailedBatch batch
    else formatConciseBatch batch p.limit p.offset), tr)

/-! ## The protocol gateway (`src/server.ts`)

The `transports` object (line 25) is the session registry: a JavaScript
object mapping session ids to transport instances.  Transports are
identified here by the `Nat` handle under which they were allocated. -/

/-- The session registry: association list with the unique-key discipline
of a JavaScript object. -/
abbrev Registry := List (String × Nat)

/-- Read `transports[sessionId]` — object property read (`undefined` when
absent). -/
def registryLookup (m : Registry) (sid : String) : Option Nat :=
  List.lookup sid m

/-- Assignment `transports[newSessionId] = transport` — object property assignment:
updates the value in place when the key exists, appends otherwise. -/
def registrySet (m : Registry) (sid : String) (t : Nat) : Registry :=
  if (registryLookup m sid).isSome then
    m.map (fun p => if p.1 = sid then (sid, t) else p)
  else m ++ [(sid, t)]

/-- Deletion `delete transports[transport.sessionId]` — run by the `onclose`
callback (`src/server.ts` lines 46–51) when a session's transport
closes. -/
def registryRemove (m : Registry) (sid : String) : Registry :=
  m.filter (fun p => p.1 ≠ sid)

/-- Gateway state: the `transports` registry plus a fresh-handle counter
standing for `new StreamableHTTPServerTransport(...)` allocation. -/
structure GatewayState where
  transports : Registry
  nextTransport : Nat
deriving DecidableEq, Repr

/-- One inbound `POST /mcp` as the gateway inspects it: the
`mcp-session-id` header (absent, or any string — the empty string is falsy
in the guards, exactly as in the source) and
`isInitializeRequest(req.body)`. -/
structure PostRequest where
  sessionId : Option String
  isInit : Bool
deriving DecidableEq, Repr

/-- The gateway's decision on one `POST /mcp`: the HTTP status it
determines (200 = accepted and forwarded), the transport whose
`handleRequest` runs (`none` = rejected before reaching any transport, and
hence before reaching any tool handler), and the JSON-RPC error code of
the 400 body. -/
structure PostResponse where
  status : Nat
  forwardedTo : Option Nat
  rpcErrorCode : Option Int
deriving DecidableEq, Repr

/-- Handler `app.post("/mcp")` from `src/server.ts` (lines 28–71).
Guard structure as in the source:
`if (sessionId && transports[sessionId])` reuse the registered transport;
`else if (!sessionId && isInitializeRequest(req.body))` allocate a fresh
transport, connect a new server instance and register the transport under
the freshly generated UUID (`freshSessionId` stands for `randomUUID()`;
registration happens in the `onsessioninitialized` callback during the
handshake); otherwise answer
`400 {jsonrpc: "2.0", error: {code: -32000, ...}}` without touching any
transport. -/
def handlePost (st : GatewayState) (req : PostRequest) (freshSessionId : String) :
    PostResponse × GatewayState :=
  let sid := req.sessionId.getD ""
  if jsTruthyOpt req.sessionId && (registryLookup st.transports sid).isSome then
    (⟨200, registryLookup st.transports sid, none⟩, st)
  else if !(jsTruthyOpt req.sessionId) && req.isInit then
    let t := st.nextTransport
    (⟨200, some t, none⟩,
     { transports := registrySet st.transports freshSessionId t, nextTransport := t + 1 })
  else
    (⟨400, none, some (-32000)⟩, st)

/-! ## Helper lemmas -/

/-- Pushing through a list with a left fold appends the mapped list. -/
theorem foldl_push_eq_append_map {α β : Type} (f : α → β) (l : List α) (acc : List β) :
    l.foldl (fun acc r => acc ++ [f r]) acc = acc ++ l.map f := by
  induction l generalizing acc with
  | nil => simp
  | cons a l ih => simp [List.foldl, ih]

/-- After a `delete`, looking the key up yields `undefined`. -/
theorem lookup_registryRemove (m : Registry) (sid : String) :
    registryLookup (registryRemove m sid) sid = none := by
  simp only [registryRemove, registryLookup, List.lookup_eq_none_iff]
  intro p hp
  have h := (List.mem_filter.mp hp).2
  simp only [decide_eq_true_eq] at h
  simpa [bne_iff_ne] using Ne.symm h

/-- Object assignment on an already-present key: the subsequent read sees
the new value. -/
theorem lookup_map_overwrite (m : Registry) (sid : String) (t : Nat)
    (h : (List.lookup sid m).isSome) :
    List.lookup sid (m.map fun p => if p.1 = sid then (sid, t) else p) = some t := by
  induction m with
  | nil => simp at h
  | cons p m ih =>
    rcases p with ⟨k, v⟩
    by_cases hk : k = sid
    · subst hk
      simp [List.lookup_cons]
    · rw [List.lookup_cons] at h
      have hbeq : (sid == k) = false := by simp [hk, Ne.symm hk]
      rw [hbeq] at h
      simp only [List.map_cons, if_neg hk, List.lookup_cons, hbeq]
      exact ih h

/-- Object assignment followed by a read of the same key yields the
assigned value, whether or not the key was present before. -/
theorem lookup_registrySet (m : Registry) (sid : String) (t : Nat) :
    registryLookup (registrySet m sid t) sid = some t := by
  unfold registrySet
  by_cases h : (registryLookup m sid).isSome
  · rw [if_pos h]
    exact lookup_map_overwrite m sid t h
  · rw [if_neg h]
    have hnone : List.lookup sid m = none := Option.not_isSome_iff_eq_none.mp h
    simp [registryLookup, List.lookup_append, hnone]

/-- Keys of the registry stay pairwise distinct under assignment, so a
session id maps to at most one transport. -/
theorem registrySet_keys_nodup (m : Registry) (sid : String) (t : Nat)
    (h : (m.map Prod.fst).Nodup) : ((registrySet m sid t).map Prod.fst).Nodup := by
  unfold registrySet
  by_cases hs : (registryLookup m sid).isSome
  · rw [if_pos hs]
    have : ((m.map fun p => if p.1 = sid then (sid, t) else p).map Prod.fst) =
        m.map Prod.fst := by
      rw [List.map_map]
      refine List.map_congr_left ?_
      intro p _
      by_cases hp : p.1 = sid
      · simp [hp]
      · simp [hp]
    rw [this]
    exact h
  · rw [if_neg hs]
    have hnone : List.lookup sid m = none := Option.not_isSome_iff_eq_none.mp hs
    have hnotmem : sid ∉ m.map Prod.fst := by
      intro hmem
      rcases List.mem_map.mp hmem with ⟨p, hp, hfst⟩
      have := List.lookup_eq_none_iff.mp hnone p hp
      rw [hfst] at this
      simp at this
    simp only [List.map_append, List.map_cons, List.map_nil]
    rw [List.nodup_append]
    refine ⟨h, List.nodup_singleton sid, ?_⟩
    intro a ha hb
    simp only [List.mem_singleton] at hb
    subst hb
    exact hnotmem ha

/-! ## Claim theorems -/

/-- C1 (counterexample): a `POST /mcp` carrying the session id `"s"`,
unknown to an empty registry, whose body is an initialize request, is
answered `400` with JSON-RPC error `-32000`, and the gateway state is
unchanged — no Session is created or registered.  This contradicts the
claim that an initialize message with a supplied-but-unknown session id
creates and registers a new Session. -/
theorem handlePost_unknown_id_initialize_cex :
    handlePost ⟨[], 0⟩ ⟨some "s", true⟩ "fresh" =
      (⟨400, none, some (-32000)⟩, ⟨[], 0⟩) := by
  decide

/-- C1 (amended): the gateway creates, handshakes and registers a new
Session exactly when the message carries no session id and is an
initialize request; a supplied (non-empty) session id that is unknown to
the registry is rejected with 400 and no state change, even when the
message is an initialize request. -/
theorem handlePost_initialize_behavior (st : GatewayState) (req : PostRequest)
    (fresh : String) :
    (req.sessionId = none → req.isInit = true →
      handlePost st req fresh =
        (⟨200, some st.nextTransport, none⟩,
         ⟨registrySet st.transports fresh st.nextTransport, st.nextTransport + 1⟩) ∧
      registryLookup (handlePost st req fresh).2.transports fresh =
        some st.nextTransport) ∧
    (∀ s, req.sessionId = some s → s ≠ "" →
      registryLookup st.transports s = none →
      handlePost st req fresh = (⟨400, none, some (-32000)⟩, st)) := by
  constructor
  · intro h1 h2
    constructor
    · simp [handlePost, h1, h2, jsTruthyOpt]
    · simp [handlePost, h1, h2, jsTruthyOpt, lookup_registrySet]
  · intro s h1 h2 h3
    simp [handlePost, h1, h2, h3, jsTruthyOpt]

/-- C1 (witness): the amended theorem applied at concrete inputs — an
id-less initialize message against the empty registry creates and
registers transport `0` under the fresh id `"f"`; an initialize message
carrying the unknown id `"s"` against a one-session registry is rejected
unchanged. -/
theorem handlePost_initialize_behavior_witness :
    (handlePost ⟨[], 0⟩ ⟨none, true⟩ "f" =
        (⟨200, some 0, none⟩, ⟨registrySet [] "f" 0, 1⟩) ∧
      registryLookup (handlePost ⟨[], 0⟩ ⟨none, true⟩ "f").2.transports "f" = some 0) ∧
    handlePost ⟨[("a", 3)], 4⟩ ⟨some "s", true⟩ "f" =
      (⟨400, none, some (-32000)⟩, ⟨[("a", 3)], 4⟩) :=
  ⟨(handlePost_initialize_behavior ⟨[], 0⟩ ⟨none, true⟩ "f").1 rfl rfl,
   (handlePost_initialize_behavior ⟨[("a", 3)], 4⟩ ⟨some "s", true⟩ "f").2 "s" rfl
     (by decide) (by decide)⟩

/-- C2 (counterexample): the registry raises no `ConflictError` on a
duplicate registration — assigning transport `1` under the already
registered id `"s"` silently replaces the existing entry `("s", 0)`, so a
subsequent lookup sees the new transport, not the old one. -/
theorem registrySet_conflict_cex :
    registrySet [("s", 0)] "s" 1 = [("s", 1)] ∧
    registryLookup (registrySet [("s", 0)] "s" 1) "s" ≠ some 0 := by
  constructor
  · decide
  · decide

/-- C2 (amended): each session id maps to at most one live transport (the
registry's key list stays duplicate-free under registration), but a
registration under an already-registered id replaces the existing entry —
no `ConflictError` exists; and when a Session closes, the `onclose`
deletion removes its entry, so a subsequent lookup of that id returns
absent. -/
theorem registry_overwrite_and_close_removal (m : Registry) (sid : String) (t : Nat) :
    registryLookup (registrySet m sid t) sid = some t ∧
    ((m.map Prod.fst).Nodup → ((registrySet m sid t).map Prod.fst).Nodup) ∧
    registryLookup (registryRemove m sid) sid = none :=
  ⟨lookup_registrySet m sid t, registrySet_keys_nodup m sid t,
   lookup_registryRemove m sid⟩

/-- C2 (witness): the amended theorem at a concrete registry — overwriting
the entry for `"s"`, preserving key uniqueness, and removal making the
lookup absent. -/
theorem registry_overwrite_and_close_removal_witness :
    registryLookup (registrySet [("s", 0)] "s" 1) "s" = some 1 ∧
    (((registrySet [("s", 0)] "s" 1).map Prod.fst).Nodup) ∧
    registryLookup (registryRemove [("s", 0)] "s") "s" = none :=
  ⟨(registry_overwrite_and_close_removal [("s", 0)] "s" 1).1,
   (registry_overwrite_and_close_removal [("s", 0)] "s" 1).2.1 (by decide),
   (registry_overwrite_and_close_removal [("s", 0)] "s" 1).2.2⟩

/-- C3 (confirmed): a `POST /mcp` carrying a session id that is not in the
registry and whose body is not an initialize request is answered `400`
(JSON-RPC error `-32000`), the gateway state — in particular the registry —
is unchanged, and no transport's `handleRequest` runs (`forwardedTo =
none`), so no Tool Handler can be reached. -/
theorem handlePost_unknown_session_rejected (st : GatewayState) (req : PostRequest)
    (fresh : String) (s : String) (h1 : req.sessionId = some s)
    (h2 : registryLookup st.transports s = none) (h3 : req.isInit = false) :
    handlePost st req fresh = (⟨400, none, some (-32000)⟩, st) := by
  by_cases hs : s = ""
  · subst hs
    simp [handlePost, h1, h3, jsTruthyOpt]
  · simp [handlePost, h1, h2, h3, jsTruthyOpt]

/-- C3 (witness): the theorem at a concrete input — id `"x"` unknown to a
one-session registry, non-initialize body. -/
theorem handlePost_unknown_session_rejected_witness :
    handlePost ⟨[("a", 7)], 8⟩ ⟨some "x", false⟩ "f" =
      (⟨400, none, some (-32000)⟩, ⟨[("a", 7)], 8⟩) :=
  handlePost_unknown_session_rejected ⟨[("a", 7)], 8⟩ ⟨some "x", false⟩ "f" "x"
    rfl (by decide) rfl

/-- C4 (confirmed): the `mineru_batch` handler called with more than 200
URLs fails with the local validation error before anything else happens:
the remote call adapter is entered zero times and zero HTTP requests are
issued, whatever the remote service would have answered. -/
theorem mineru_batch_over_200_no_remote_call (apiKey defaultModel : String)
    (p : BatchParams) (env : Envelope BatchResponse) (h : p.urls.length > 200) :
    mineru_batch apiKey defaultModel p env =
      (Except.error
        (MineruErr.validation "Max 200 URLs per batch. Split into smaller batches."),
       ⟨0, 0⟩) := by
  simp [mineru_batch, h]

/-- C4 (witness): the theorem at a concrete 201-URL submission. -/
theorem mineru_batch_over_200_no_remote_call_witness :
    mineru_batch "key" "pipeline"
        ⟨List.replicate 201 "u", none, none, none, none, none, none⟩
        ⟨JsonCode.num 0, none, ⟨"b"⟩⟩ =
      (Except.error
        (MineruErr.validation "Max 200 URLs per batch. Split into smaller batches."),
       ⟨0, 0⟩) :=
  mineru_batch_over_200_no_remote_call "key" "pipeline"
    ⟨List.replicate 201 "u", none, none, none, none, none, none⟩
    ⟨JsonCode.num 0, none, ⟨"b"⟩⟩ (by rw [List.length_replicate]; omega)

/-- C5 (confirmed): for every ordered batch result sequence and every
`limit`/`offset`, the concise batch formatter emits the header computed
over the whole sequence (`done/N`), then exactly the lines of the slice
`[offset, offset+limit)` clamped to `[0, N]` in original order, then the
continuation hint — advertising next offset `offset+limit` and
`N-offset-limit` remaining items — if and only if `offset+limit < N`.
The second and third conjuncts characterize the emitted slice as the
clamped window: its length is `min limit (N - offset)` and its `i`-th
element is the original sequence's `(offset+i)`-th element. -/
theorem formatConciseBatch_pagination (batch : BatchStatus) (limit offset : Nat) :
    (formatConciseBatch batch limit offset =
      String.intercalate "\n"
        (("Batch " ++ batch.batch_id ++ ": " ++
            toString (batch.extract_result.filter (fun r => r.state == "done")).length ++
            "/" ++ toString batch.extract_result.length ++ " done")
          :: ((batch.extract_result.drop offset).take limit).map renderBatchLine
          ++ (if offset + limit < batch.extract_result.length then
                ["[+" ++ toString (batch.extract_result.length - offset - limit) ++
                  " more, use offset=" ++ toString (offset + limit) ++ "]"]
              else []))) ∧
    ((batch.extract_result.drop offset).take limit).length =
      min limit (batch.extract_result.length - offset) ∧
    (∀ i : Nat, ((batch.extract_result.drop offset).take limit)[i]? =
      if i < limit then batch.extract_result[offset + i]? else none) := by
  refine ⟨?_, ?_, ?_⟩
  · by_cases hc : offset + limit < batch.extract_result.length <;>
      simp [formatConciseBatch, foldl_push_eq_append_map, hc]
  · simp [List.length_take, List.length_drop]
  · intro i
    rw [List.getElem?_take, List.getElem?_drop]

/-- C10 (confirmed): calling the concise batch formatter with `limit = 0`
and any `offset` strictly inside the sequence returns the header line only
— no item lines — followed by a continuation hint that advertises
`offset` itself as the next offset (and all `N - offset` items as
remaining), so paging with `limit = 0` never advances. -/
theorem formatConciseBatch_zero_limit (batch : BatchStatus) (offset : Nat)
    (h : offset < batch.extract_result.length) :
    formatConciseBatch batch 0 offset =
      String.intercalate "\n"
        [("Batch " ++ batch.batch_id ++ ": " ++
            toString (batch.extract_result.filter (fun r => r.state == "done")).length ++
            "/" ++ toString batch.extract_result.length ++ " done"),
         ("[+" ++ toString (batch.extract_result.length - offset) ++
            " more, use offset=" ++ toString offset ++ "]")] := by
  simp [formatConciseBatch, h]

/-- C10 (witness): the theorem at a concrete one-element batch with
`offset = 0`: the hint advertises `offset=0` again. -/
theorem formatConciseBatch_zero_limit_witness :
    formatConciseBatch ⟨"b", [⟨"f", "pending", none, none, none, none⟩]⟩ 0 0 =
      "Batch b: 0/1 done\n[+1 more, use offset=0]" :=
  (formatConciseBatch_zero_limit ⟨"b", [⟨"f", "pending", none, none, none, none⟩]⟩ 0
    (by decide)).trans (by decide)

/-- A successful association-list lookup exhibits a member of the list. -/
theorem mem_of_lookup_eq_some {l : List (String × String)} {k v : String}
    (h : l.lookup k = some v) : (k, v) ∈ l := by
  induction l with
  | nil => simp at h
  | cons p l ih =>
    rcases p with ⟨k', v'⟩
    rw [List.lookup_cons] at h
    cases hk : k == k' with
    | true =>
      rw [hk] at h
      cases h
      have : k = k' := by simpa using hk
      subst this
      exact List.mem_cons_self _ _
    | false =>
      rw [hk] at h
      exact List.mem_cons_of_mem _ (ih h)

/-- Every message in the fixed code → message table is non-empty (so it is
JS-truthy, and the `||` fallback never skips a known entry). -/
theorem ERROR_MESSAGES_values_ne_empty : ∀ p ∈ ERROR_MESSAGES, p.2 ≠ "" := by
  decide

/-- C6 (confirmed): whenever the remote envelope carries a non-success
code (anything but the JSON number `0`), the adapter fails with a remote
error whose code is `String(result.code)` and whose message `m` is: the
fixed table's entry when the stringified code is a known key; else the
service-provided message when one is present and non-empty; else
`"Unknown error"`.  In particular both the JSON number `-60006` and the
JSON string `"-60006"` resolve to the fixed page-limit message. -/
theorem mineruRequest_remote_error {α : Type} (apiKey endpoint method : String)
    (data : Option (List (String × JVal))) (env : Envelope α)
    (hkey : apiKey ≠ "") (hcode : env.code ≠ JsonCode.num 0) :
    ∃ m, (mineruRequest apiKey endpoint method data env).1 =
        Except.error (MineruErr.remote env.code.toStr m) ∧
      (∀ t, ERROR_MESSAGES.lookup env.code.toStr = some t → m = t) ∧
      (ERROR_MESSAGES.lookup env.code.toStr = none →
        ∀ s, env.msg = some s → s ≠ "" → m = s) ∧
      (ERROR_MESSAGES.lookup env.code.toStr = none →
        (env.msg = none ∨ env.msg = some "") → m = "Unknown error") ∧
      ((env.code = JsonCode.num (-60006) ∨ env.code = JsonCode.str "-60006") →
        m = "Too many pages. Max 600 per file. Split the document.") := by
  refine ⟨resolveRemoteMsg env.code.toStr env.msg, ?_, ?_, ?_, ?_, ?_⟩
  · simp [mineruRequest, jsTruthy, hkey, hcode]
  · intro t ht
    have hne := ERROR_MESSAGES_values_ne_empty _ (mem_of_lookup_eq_some ht)
    simp [resolveRemoteMsg, jsOr, jsTruthy, ht, hne]
  · intro hnone s hs hsne
    simp [resolveRemoteMsg, jsOr, jsTruthy, hnone, hs, hsne]
  · intro hnone hmsg
    rcases hmsg with hmsg | hmsg <;>
      simp [resolveRemoteMsg, jsOr, jsTruthy, hnone, hmsg]
  · intro hc
    have htab : ERROR_MESSAGES.lookup env.code.toStr =
        some "Too many pages. Max 600 per file. Split the document." := by
      rcases hc with hc | hc <;> rw [hc] <;> rfl
    simp [resolveRemoteMsg, jsOr, jsTruthy, htab]

/-- C6 (witness): the theorem at the concrete envelope
`{code: -60006, msg: "whatever"}` — the adapter's failure carries the
fixed page-limit message, not the service-provided one. -/
theorem mineruRequest_remote_error_witness :
    (mineruRequest "key" "/extract/task" "POST" none
        (⟨JsonCode.num (-60006), some "whatever", ()⟩ : Envelope Unit)).1 =
      Except.error (MineruErr.remote "-60006"
        "Too many pages. Max 600 per file. Split the document.") := by
  obtain ⟨m, h1, _, _, _, h5⟩ :=
    mineruRequest_remote_error "key" "/extract/task" "POST" none
      (⟨JsonCode.num (-60006), some "whatever", ()⟩ : Envelope Unit)
      (by decide) (by decide)
  rw [h5 (Or.inl rfl)] at h1
  exact h1

/-- C7 (confirmed): with the configured credential absent (empty API key),
each of the four tool handlers fails with the configuration error `Error
("MINERU_API_KEY not set. Add it to your environment.")` and issues zero
HTTP requests (`httpRequests = 0` — the adapter is entered, and returns
before any network activity), for every choice of parameters and whatever
the remote service would have answered.  (`mineru_batch` is stated for
submissions within the 200-URL limit; above it, the validation error fires
before the adapter is even entered, see C4.) -/
theorem empty_api_key_config_error (defaultModel : String) (pp : ParseParams)
    (sp : StatusParams) (bp : BatchParams) (bsp : BatchStatusParams)
    (envT : Envelope TaskResponse) (envS : Envelope TaskStatus)
    (envB : Envelope BatchResponse) (envBS : Envelope BatchStatus)
    (hb : bp.urls.length ≤ 200) :
    mineru_parse "" defaultModel pp envT =
      (Except.error (MineruErr.config "MINERU_API_KEY not set. Add it to your environment."),
       ⟨1, 0⟩) ∧
    mineru_status "" sp envS =
      (Except.error (MineruErr.config "MINERU_API_KEY not set. Add it to your environment."),
       ⟨1, 0⟩) ∧
    mineru_batch "" defaultModel bp envB =
      (Except.error (MineruErr.config "MINERU_API_KEY not set. Add it to your environment."),
       ⟨1, 0⟩) ∧
    mineru_batch_status "" bsp envBS =
      (Except.error (MineruErr.config "MINERU_API_KEY not set. Add it to your environment."),
       ⟨1, 0⟩) := by
  have hb' : ¬ (bp.urls.length > 200) := by omega
  refine ⟨?_, ?_, ?_, ?_⟩
  · simp [mineru_parse, mineruRequest, jsTruthy, Except.map]
  · simp [mineru_status, mineruRequest, jsTruthy, Except.map]
  · simp [mineru_batch, hb', mineruRequest, jsTruthy, Except.map]
  · simp [mineru_batch_status, mineruRequest, jsTruthy, Except.map]

/-- C7 (witness): the theorem at concrete parameters for all four
handlers (single-URL batch, default formats). -/
theorem empty_api_key_config_error_witness :
    mineru_parse "" "pipeline" ⟨"u", none, none, none, none, none, none, none⟩
        ⟨JsonCode.num 0, none, ⟨"t"⟩⟩ =
      (Except.error (MineruErr.config "MINERU_API_KEY not set. Add it to your environment."),
       ⟨1, 0⟩) ∧
    mineru_batch "" "pipeline" ⟨["u"], none, none, none, none, none, none⟩
        ⟨JsonCode.num 0, none, ⟨"b"⟩⟩ =
      (Except.error (MineruErr.config "MINERU_API_KEY not set. Add it to your environment."),
       ⟨1, 0⟩) := by
  obtain ⟨h1, _, h3, _⟩ :=
    empty_api_key_config_error "pipeline" ⟨"u", none, none, none, none, none, none, none⟩
      ⟨"t", "concise"⟩ ⟨["u"], none, none, none, none, none, none⟩ ⟨"b", 10, 0, "concise"⟩
      ⟨JsonCode.num 0, none, ⟨"t"⟩⟩ ⟨JsonCode.num 0, none, ⟨"t", none, "pending", none, none, none⟩⟩
      ⟨JsonCode.num 0, none, ⟨"b"⟩⟩ ⟨JsonCode.num 0, none, ⟨"b", []⟩⟩ (by decide)
  exact ⟨h1, h3⟩

/-- C8 (confirmed): the concise status formatter produces
`"<state> | <task_id> | <extra>"` with `<extra>` the result URL for a done
task (when the URL is present and non-empty), `"<extracted>/<total>
pages"` for a running task with progress, and the error message for a
failed task (when present and non-empty); in particular the record
`{state: "running", extract_progress: {extracted_pages: 3, total_pages:
10}}` with task id `"t1"` formats as `"running | t1 | 3/10 pages"`. -/
theorem formatConciseStatus_shape (status : TaskStatus) :
    (status.state = "done" → ∀ u, status.full_zip_url = some u → u ≠ "" →
      formatConciseStatus status = "done | " ++ status.task_id ++ " | " ++ u) ∧
    (status.state = "running" → ∀ p, status.extract_progress = some p →
      formatConciseStatus status =
        "running | " ++ status.task_id ++ " | " ++
          (toString p.extracted_pages ++ "/" ++ toString p.total_pages ++ " pages")) ∧
    (status.state = "failed" → ∀ e, status.err_msg = some e → e ≠ "" →
      formatConciseStatus status = "failed | " ++ status.task_id ++ " | " ++ e) ∧
    formatConciseStatus ⟨"t1", none, "running", none, none, some ⟨3, 10, "2024"⟩⟩ =
      "running | t1 | 3/10 pages" := by
  refine ⟨?_, ?_, ?_, by decide⟩
  · intro h u hu hune
    simp only [formatConciseStatus, h, hu, jsTruthyOpt]
    simp [hune, String.intercalate]
    rfl
  · intro h p hp
    simp only [formatConciseStatus, h, hp, jsTruthyOpt]
    simp [String.intercalate]
    rfl
  · intro h e he hene
    simp only [formatConciseStatus, h, he, jsTruthyOpt]
    simp [hene, String.intercalate]
    rfl

/-- C8 (witness): the theorem's done-branch at a concrete record — a done
task with a result URL formats as state, id and URL joined by `" | "`. -/
theorem formatConciseStatus_shape_witness :
    formatConciseStatus ⟨"t2", none, "done", some "http://u", none, none⟩ =
      "done | t2 | http://u" :=
  (formatConciseStatus_shape ⟨"t2", none, "done", some "http://u", none, none⟩).1
    rfl "http://u" rfl (by decide)

end MineruMcp
